import Mathlib

/-!
Verification of the ROE calculation engine of realtyvest-ai
(`src/features/roe_calculator.py`).

The embedding is shallow: Python floats are modelled as exact rationals
(`ℚ`), Python dicts holding the per-property result as a Lean structure,
pandas rows as a structure of `Option` fields (a missing required field is
`none`, matching the `KeyError` a row access raises), and the batch call as
an `Except`-valued function (`Except.error` stands for an exception
propagating out of the call).  All definitions are translated from the
source file, keeping its names.
-/

namespace RealtyVest

/-- Keys of the `ROE_TIERS` table. -/
inductive Tier where
  | unicorn
  | strong
  | marginal
  | pass
deriving DecidableEq

/-- One entry of the `ROE_TIERS` dict: `min`, `color`, `icon`, `label`. -/
structure TierInfo where
  min : ℚ
  color : String
  icon : String
  label : String
deriving DecidableEq

/-- The module-level `ROE_TIERS` table of `roe_calculator.py`. -/
def ROE_TIERS : Tier → TierInfo
  | Tier.unicorn => ⟨0.20, "purple", "star", "🦄 UNICORN"⟩
  | Tier.strong => ⟨0.15, "green", "home", "🟢 Strong Buy"⟩
  | Tier.marginal => ⟨0.10, "orange", "info-sign", "🟡 Marginal"⟩
  | Tier.pass => ⟨0.00, "red", "remove", "🔴 Pass"⟩

/-- The module-level function `get_roe_tier`: thresholds checked top-down
with inclusive lower bounds. -/
def get_roe_tier (roe : ℚ) : TierInfo :=
  if roe ≥ 0.20 then ROE_TIERS Tier.unicorn
  else if roe ≥ 0.15 then ROE_TIERS Tier.strong
  else if roe ≥ 0.10 then ROE_TIERS Tier.marginal
  else ROE_TIERS Tier.pass

/-- C2: Tier classification is total and non-overlapping: every ROE value maps
to exactly one of the four pairwise distinct tiers, with inclusive lower
bounds — ROE ≥ 0.20 gives unicorn, 0.15 ≤ ROE < 0.20 gives strong,
0.10 ≤ ROE < 0.15 gives marginal, and ROE < 0.10 gives pass. -/
theorem C2_tier_classification (roe : ℚ) :
    (ROE_TIERS Tier.unicorn ≠ ROE_TIERS Tier.strong ∧
      ROE_TIERS Tier.unicorn ≠ ROE_TIERS Tier.marginal ∧
      ROE_TIERS Tier.unicorn ≠ ROE_TIERS Tier.pass ∧
      ROE_TIERS Tier.strong ≠ ROE_TIERS Tier.marginal ∧
      ROE_TIERS Tier.strong ≠ ROE_TIERS Tier.pass ∧
      ROE_TIERS Tier.marginal ≠ ROE_TIERS Tier.pass) ∧
    (get_roe_tier roe = ROE_TIERS Tier.unicorn ∨
      get_roe_tier roe = ROE_TIERS Tier.strong ∨
      get_roe_tier roe = ROE_TIERS Tier.marginal ∨
      get_roe_tier roe = ROE_TIERS Tier.pass) ∧
    (0.20 ≤ roe → get_roe_tier roe = ROE_TIERS Tier.unicorn) ∧
    (0.15 ≤ roe ∧ roe < 0.20 → get_roe_tier roe = ROE_TIERS Tier.strong) ∧
    (0.10 ≤ roe ∧ roe < 0.15 → get_roe_tier roe = ROE_TIERS Tier.marginal) ∧
    (roe < 0.10 → get_roe_tier roe = ROE_TIERS Tier.pass) := by
  refine ⟨⟨?_, ?_, ?_, ?_, ?_, ?_⟩, ?_, ?_, ?_, ?_, ?_⟩
  case _ => norm_num [ROE_TIERS]
  case _ => norm_num [ROE_TIERS]
  case _ => norm_num [ROE_TIERS]
  case _ => norm_num [ROE_TIERS]
  case _ => norm_num [ROE_TIERS]
  case _ => norm_num [ROE_TIERS]
  case _ => unfold get_roe_tier; split_ifs <;> tauto
  case _ =>
    intro h
    unfold get_roe_tier
    rw [if_pos h]
  case _ =>
    intro h
    unfold get_roe_tier
    rw [if_neg (not_le.mpr h.2), if_pos h.1]
  case _ =>
    intro h
    unfold get_roe_tier
    rw [if_neg (not_le.mpr (h.2.trans (by norm_num))), if_neg (not_le.mpr h.2),
      if_pos h.1]
  case _ =>
    intro h
    unfold get_roe_tier
    rw [if_neg (not_le.mpr (h.trans (by norm_num))),
      if_neg (not_le.mpr (h.trans (by norm_num))), if_neg (not_le.mpr h)]

/-- Witness for C2 at the boundary inputs 0.20, 0.15 and 0.10. -/
theorem C2_tier_classification_boundary_witness :
    ((0.20 : ℚ) ≤ 0.20 ∧ get_roe_tier 0.20 = ROE_TIERS Tier.unicorn) ∧
    (((0.15 : ℚ) ≤ 0.15 ∧ (0.15 : ℚ) < 0.20) ∧
      get_roe_tier 0.15 = ROE_TIERS Tier.strong) ∧
    (((0.10 : ℚ) ≤ 0.10 ∧ (0.10 : ℚ) < 0.15) ∧
      get_roe_tier 0.10 = ROE_TIERS Tier.marginal) ∧
    ((0.05 : ℚ) < 0.10 ∧ get_roe_tier 0.05 = ROE_TIERS Tier.pass) :=
  ⟨⟨by norm_num, (C2_tier_classification 0.20).2.2.1 (by norm_num)⟩,
    ⟨by norm_num, (C2_tier_classification 0.15).2.2.2.1 (by norm_num)⟩,
    ⟨by norm_num, (C2_tier_classification 0.10).2.2.2.2.1 (by norm_num)⟩,
    ⟨by norm_num, (C2_tier_classification 0.05).2.2.2.2.2 (by norm_num)⟩⟩

/-- The method `ROECalculator.calculate_mortgage_payment`: standard fixed-rate
amortization payment, with a special case for a zero monthly rate.  The method
reads no state from `self`, so it is a plain function here. -/
def calculate_mortgage_payment (loan_amount annual_rate : ℚ) (years : ℕ) : ℚ :=
  let monthly_rate := annual_rate / 12
  let num_payments : ℕ := years * 12
  if monthly_rate = 0 then loan_amount / (num_payments : ℚ)
  else
    loan_amount * (monthly_rate * (1 + monthly_rate) ^ num_payments) /
      ((1 + monthly_rate) ^ num_payments - 1)

/-- One month of the simulation loop in
`ROECalculator.calculate_principal_paydown_year1`: the state is
(balance, total_principal); interest = balance × monthly rate, the principal
portion is payment − interest, the balance decreases by it and the total
accumulates it. -/
def paydownStep (monthly_rate monthly_payment : ℚ) (s : ℚ × ℚ) : ℚ × ℚ :=
  let interest_payment := s.1 * monthly_rate
  let principal_payment := monthly_payment - interest_payment
  (s.1 - principal_payment, s.2 + principal_payment)

/-- The method `ROECalculator.calculate_principal_paydown_year1`: run the
monthly loop 12 times from (loan_amount, 0) and return the accumulated
principal. -/
def calculate_principal_paydown_year1
    (loan_amount monthly_payment annual_rate : ℚ) : ℚ :=
  let monthly_rate := annual_rate / 12
  ((paydownStep monthly_rate monthly_payment)^[12] (loan_amount, 0)).2

/-- The balance component of the same month-by-month simulation, iterated an
arbitrary number of months (C3 runs it for the loan's full term). -/
def balanceAfter (loan_amount monthly_rate monthly_payment : ℚ) : ℕ → ℚ
  | 0 => loan_amount
  | k + 1 =>
      let balance := balanceAfter loan_amount monthly_rate monthly_payment k
      let interest_payment := balance * monthly_rate
      let principal_payment := monthly_payment - interest_payment
      balance - principal_payment

lemma balanceAfter_closed (L m p : ℚ) (hm : m ≠ 0) (k : ℕ) :
    balanceAfter L m p k = L * (1 + m) ^ k - p * ((1 + m) ^ k - 1) / m := by
  induction k with
  | zero => simp [balanceAfter]
  | succ k ih =>
      rw [show balanceAfter L m p (k + 1) =
          balanceAfter L m p k - (p - balanceAfter L m p k * m) from rfl, ih]
      field_simp
      ring

lemma balanceAfter_zero_rate (L p : ℚ) (k : ℕ) :
    balanceAfter L 0 p k = L - k * p := by
  induction k with
  | zero => simp [balanceAfter]
  | succ k ih =>
      rw [show balanceAfter L 0 p (k + 1) =
          balanceAfter L 0 p k - (p - balanceAfter L 0 p k * 0) from rfl, ih]
      push_cast
      ring

lemma paydownStep_iterate (L m p : ℚ) (k : ℕ) :
    (paydownStep m p)^[k] (L, 0) =
      (balanceAfter L m p k, L - balanceAfter L m p k) := by
  induction k with
  | zero => simp [balanceAfter]
  | succ k ih =>
      rw [Function.iterate_succ_apply', ih]
      simp only [paydownStep, balanceAfter, Prod.mk.injEq]
      exact ⟨trivial, by ring⟩

/-- Year-1 principal paid equals the drop of the simulated balance over the
first 12 months. -/
lemma calculate_principal_paydown_year1_eq (L p r : ℚ) :
    calculate_principal_paydown_year1 L p r =
      L - balanceAfter L (r / 12) p 12 := by
  show ((paydownStep (r / 12) p)^[12] (L, 0)).2 = L - balanceAfter L (r / 12) p 12
  rw [paydownStep_iterate]

/-- The simulated balance, when the payment is the amortization-formula
payment over n months, in closed form. -/
lemma balanceAfter_formula_payment (L m : ℚ) (hm : m ≠ 0) (n : ℕ)
    (hne : (1 + m) ^ n - 1 ≠ 0) (k : ℕ) :
    balanceAfter L m (L * (m * (1 + m) ^ n) / ((1 + m) ^ n - 1)) k =
      L * ((1 + m) ^ n - (1 + m) ^ k) / ((1 + m) ^ n - 1) := by
  rw [balanceAfter_closed _ _ _ hm]
  field_simp
  ring

lemma calculate_mortgage_payment_zero (L r : ℚ) (years : ℕ) (h : r / 12 = 0) :
    calculate_mortgage_payment L r years = L / ((years * 12 : ℕ) : ℚ) := by
  simp only [calculate_mortgage_payment]
  rw [if_pos h]

lemma calculate_mortgage_payment_formula (L r : ℚ) (years : ℕ)
    (h : r / 12 ≠ 0) :
    calculate_mortgage_payment L r years =
      L * (r / 12 * (1 + r / 12) ^ (years * 12)) /
        ((1 + r / 12) ^ (years * 12) - 1) := by
  simp only [calculate_mortgage_payment]
  rw [if_neg h]

/-- C5: when the monthly rate (annual rate / 12) is exactly zero,
calculate_mortgage_payment takes the special-case branch and returns exactly
loan amount / (years × 12). -/
theorem C5_zero_rate_payment (loan_amount annual_rate : ℚ) (years : ℕ)
    (h : annual_rate / 12 = 0) :
    calculate_mortgage_payment loan_amount annual_rate years =
      loan_amount / ((years * 12 : ℕ) : ℚ) :=
  calculate_mortgage_payment_zero loan_amount annual_rate years h

/-- Witness for C5 at loan 180000, rate 0, 30 years. -/
theorem C5_zero_rate_payment_witness :
    (0 : ℚ) / 12 = 0 ∧
      calculate_mortgage_payment 180000 0 30 = 180000 / ((30 * 12 : ℕ) : ℚ) :=
  ⟨by norm_num, C5_zero_rate_payment 180000 0 30 (by norm_num)⟩

/-- C3: for L > 0, annual rate r > 0 and a term of years ≥ 1, simulating the
month-by-month amortization (interest = balance × monthly rate, principal =
payment − interest, balance decreases by principal) for years × 12 months with
the payment returned by calculate_mortgage_payment ends at balance exactly 0
(the arithmetic here is exact). -/
theorem C3_payment_retires_loan (loan_amount annual_rate : ℚ) (years : ℕ)
    (_hL : 0 < loan_amount) (hr : 0 < annual_rate) (hy : 1 ≤ years) :
    balanceAfter loan_amount (annual_rate / 12)
      (calculate_mortgage_payment loan_amount annual_rate years)
      (years * 12) = 0 := by
  have hm0 : 0 < annual_rate / 12 := by positivity
  have hm : annual_rate / 12 ≠ 0 := ne_of_gt hm0
  have hn : years * 12 ≠ 0 := by omega
  have hpow : (1 : ℚ) < (1 + annual_rate / 12) ^ (years * 12) :=
    one_lt_pow₀ (by linarith) hn
  have hne : (1 + annual_rate / 12) ^ (years * 12) - 1 ≠ 0 :=
    ne_of_gt (sub_pos.mpr hpow)
  rw [calculate_mortgage_payment_formula loan_amount annual_rate years hm,
    balanceAfter_formula_payment _ _ hm _ hne]
  simp

/-- Witness for C3: a 1000 loan at 100% annual rate over 1 year. -/
theorem C3_payment_retires_loan_witness :
    0 < (1000 : ℚ) ∧ 0 < (1 : ℚ) ∧ 1 ≤ 1 ∧
      balanceAfter 1000 ((1 : ℚ) / 12)
        (calculate_mortgage_payment 1000 1 1) (1 * 12) = 0 :=
  ⟨by norm_num, by norm_num, le_refl 1,
    C3_payment_retires_loan 1000 1 1 (by norm_num) (by norm_num) (le_refl 1)⟩

/-- C4: on the payment computed by calculate_mortgage_payment for the same
loan and (non-negative) rate, the Year-1 principal paydown is strictly below
the full loan amount whenever the term exceeds 1 year, and strictly positive
whenever the monthly payment is strictly positive. -/
theorem C4_year1_paydown_bounds (loan_amount annual_rate : ℚ) (years : ℕ)
    (hL : 0 < loan_amount) (hr : 0 ≤ annual_rate) (hy : 1 ≤ years) :
    (2 ≤ years →
      calculate_principal_paydown_year1 loan_amount
          (calculate_mortgage_payment loan_amount annual_rate years) annual_rate
        < loan_amount) ∧
    (0 < calculate_mortgage_payment loan_amount annual_rate years →
      0 < calculate_principal_paydown_year1 loan_amount
          (calculate_mortgage_payment loan_amount annual_rate years)
          annual_rate) := by
  have key : (2 ≤ years → 0 < balanceAfter loan_amount (annual_rate / 12)
        (calculate_mortgage_payment loan_amount annual_rate years) 12) ∧
      balanceAfter loan_amount (annual_rate / 12)
          (calculate_mortgage_payment loan_amount annual_rate years) 12
        < loan_amount := by
    rcases eq_or_lt_of_le hr with hr0 | hrpos
    · have hm : annual_rate / 12 = 0 := by rw [← hr0]; norm_num
      rw [calculate_mortgage_payment_zero loan_amount annual_rate years hm, hm,
        balanceAfter_zero_rate]
      have hy0 : (0 : ℚ) < (years : ℚ) := by
        exact_mod_cast Nat.lt_of_lt_of_le Nat.zero_lt_one hy
      have heq : (12 : ℕ) * (loan_amount / ((years * 12 : ℕ) : ℚ)) =
          loan_amount / (years : ℚ) := by
        have hy0' : (years : ℚ) ≠ 0 := ne_of_gt hy0
        push_cast
        field_simp
        ring
      rw [heq]
      constructor
      · intro h2
        have hy2 : (2 : ℚ) ≤ (years : ℚ) := by exact_mod_cast h2
        have hlt : loan_amount / (years : ℚ) < loan_amount :=
          div_lt_self hL (by linarith)
        linarith
      · have hpos : 0 < loan_amount / (years : ℚ) := div_pos hL hy0
        linarith
    · have hm0 : 0 < annual_rate / 12 := by positivity
      have hm : annual_rate / 12 ≠ 0 := ne_of_gt hm0
      have hn : years * 12 ≠ 0 := by omega
      have hone : (1 : ℚ) < 1 + annual_rate / 12 := by linarith
      have hXN : (1 : ℚ) < (1 + annual_rate / 12) ^ (years * 12) :=
        one_lt_pow₀ hone hn
      have hden : (0 : ℚ) < (1 + annual_rate / 12) ^ (years * 12) - 1 :=
        sub_pos.mpr hXN
      have hne : (1 + annual_rate / 12) ^ (years * 12) - 1 ≠ 0 := ne_of_gt hden
      have hX12 : (1 : ℚ) < (1 + annual_rate / 12) ^ 12 :=
        one_lt_pow₀ hone (by norm_num)
      rw [calculate_mortgage_payment_formula loan_amount annual_rate years hm,
        balanceAfter_formula_payment _ _ hm _ hne]
      constructor
      · intro h2
        have hlt : (1 + annual_rate / 12) ^ 12 <
            (1 + annual_rate / 12) ^ (years * 12) :=
          pow_lt_pow_right₀ hone (by omega)
        exact div_pos (mul_pos hL (sub_pos.mpr hlt)) hden
      · rw [div_lt_iff₀ hden]
        have hsub : (1 + annual_rate / 12) ^ (years * 12) -
              (1 + annual_rate / 12) ^ 12 <
            (1 + annual_rate / 12) ^ (years * 12) - 1 := by linarith
        exact mul_lt_mul_of_pos_left hsub hL
  constructor
  · intro h2
    have hbal := key.1 h2
    rw [calculate_principal_paydown_year1_eq]
    linarith
  · intro hp
    have hbal := key.2
    rw [calculate_principal_paydown_year1_eq]
    linarith

/-- Witness for C4: a 1000 loan at 0% over 2 years; payment 1000/24 per month,
Year-1 paydown 500, strictly between 0 and the loan amount. -/
theorem C4_year1_paydown_bounds_witness :
    0 < (1000 : ℚ) ∧ (0 : ℚ) ≤ 0 ∧ 1 ≤ 2 ∧ 2 ≤ 2 ∧
      calculate_principal_paydown_year1 1000
          (calculate_mortgage_payment 1000 0 2) 0 < 1000 ∧
      0 < calculate_mortgage_payment 1000 0 2 ∧
      0 < calculate_principal_paydown_year1 1000
          (calculate_mortgage_payment 1000 0 2) 0 := by
  have h := C4_year1_paydown_bounds 1000 0 2 (by norm_num) le_rfl (by norm_num)
  have hp : 0 < calculate_mortgage_payment 1000 0 2 := by
    rw [calculate_mortgage_payment_zero 1000 0 2 (by norm_num)]
    norm_num
  exact ⟨by norm_num, le_rfl, by norm_num, le_rfl, h.1 (by norm_num), hp, h.2 hp⟩

/-- The high-rent ZIP allow-list of `estimate_market_rent`. -/
def high_rent_zips : List String :=
  ["75201", "75204", "75205", "75219", "75225", "76107", "76109"]

/-- The mid-rent ZIP allow-list of `estimate_market_rent`. -/
def mid_rent_zips : List String :=
  ["75206", "75214", "75218", "75223", "75235", "76102", "76104", "76105"]

/-- The `base_rate` selection inside `estimate_market_rent`: 1.40 for the
high-rent list, 1.20 for the mid-rent list, 1.00 for everything else. -/
def base_zip_rate (zip_code : String) : ℚ :=
  if zip_code ∈ high_rent_zips then 1.40
  else if zip_code ∈ mid_rent_zips then 1.20
  else 1.00

/-- The method `ROECalculator.estimate_market_rent` (it reads no state from
`self`): rent = sqft-per-unit × tier rate, clamped into [800, 2500] by
`max(800, min(rent, 2500))`. -/
def estimate_market_rent (zip_code : String) (sqft_per_unit : ℚ) : ℚ :=
  let base_rate := base_zip_rate zip_code
  let monthly_rent := sqft_per_unit * base_rate
  max 800 (min monthly_rent 2500)

/-- C6: for every ZIP string and every sqft-per-unit value the estimated rent
lies in [800, 2500]; whenever the unclamped product sqft-per-unit × tier rate
(1.40 on the high-rent list, 1.20 on the mid-rent list, 1.00 otherwise)
already lies in that interval, the rent equals that product. -/
theorem C6_rent_clamped (zip_code : String) (sqft_per_unit : ℚ) :
    (800 ≤ estimate_market_rent zip_code sqft_per_unit ∧
      estimate_market_rent zip_code sqft_per_unit ≤ 2500) ∧
    (800 ≤ sqft_per_unit * base_zip_rate zip_code ∧
        sqft_per_unit * base_zip_rate zip_code ≤ 2500 →
      estimate_market_rent zip_code sqft_per_unit =
        sqft_per_unit * base_zip_rate zip_code) ∧
    ((zip_code ∈ high_rent_zips → base_zip_rate zip_code = 1.40) ∧
      (zip_code ∉ high_rent_zips → zip_code ∈ mid_rent_zips →
        base_zip_rate zip_code = 1.20) ∧
      (zip_code ∉ high_rent_zips → zip_code ∉ mid_rent_zips →
        base_zip_rate zip_code = 1.00)) := by
  refine ⟨⟨le_max_left _ _, max_le (by norm_num) (min_le_right _ _)⟩, ?_, ?_, ?_, ?_⟩
  · intro h
    show max 800 (min (sqft_per_unit * base_zip_rate zip_code) 2500) = _
    rw [min_eq_left h.2, max_eq_right h.1]
  · intro h
    unfold base_zip_rate
    rw [if_pos h]
  · intro h1 h2
    unfold base_zip_rate
    rw [if_neg h1, if_pos h2]
  · intro h1 h2
    unfold base_zip_rate
    rw [if_neg h1, if_neg h2]

/-- Witness for C6: a mid-rent ZIP at 1000 sqft per unit, product 1200 inside
the clamp interval. -/
theorem C6_rent_clamped_witness :
    (800 ≤ (1000 : ℚ) * base_zip_rate "75206" ∧
      (1000 : ℚ) * base_zip_rate "75206" ≤ 2500) ∧
    estimate_market_rent "75206" 1000 = 1000 * base_zip_rate "75206" ∧
    800 ≤ estimate_market_rent "75206" 1000 ∧
    estimate_market_rent "75206" 1000 ≤ 2500 := by
  have hrate : base_zip_rate "75206" = 1.20 := by
    have h := (C6_rent_clamped "75206" 1000).2.2
    exact h.2.1 (by decide) (by decide)
  have hin : 800 ≤ (1000 : ℚ) * base_zip_rate "75206" ∧
      (1000 : ℚ) * base_zip_rate "75206" ≤ 2500 := by
    rw [hrate]; norm_num
  exact ⟨hin, (C6_rent_clamped "75206" 1000).2.1 hin,
    (C6_rent_clamped "75206" 1000).1⟩

/-- The underwriting configuration fixed at `ROECalculator.__init__`: the
constructor's defaults are 35% OpEx, 25% down, 7% rate, 30 years, 0%
appreciation. -/
structure ROECalculator where
  opex_ratio : ℚ := 0.35
  down_pct : ℚ := 0.25
  rate : ℚ := 0.07
  term : ℕ := 30
  appreciation : ℚ := 0
deriving DecidableEq

/-- An `ROECalculator()` built with the constructor's defaults. -/
def defaultCalculator : ROECalculator := {}

/-- The result dict returned by `ROECalculator.calculate_roe`, one field per
key. -/
structure RoeResult where
  purchase_price : ℚ
  units : ℚ
  monthly_rent_per_unit : ℚ
  zip_code : String
  down_payment : ℚ
  loan_amount : ℚ
  monthly_payment : ℚ
  annual_gross_rent : ℚ
  annual_opex : ℚ
  opex_ratio : ℚ
  noi : ℚ
  annual_debt_service : ℚ
  cash_flow : ℚ
  principal_paydown : ℚ
  appreciation : ℚ
  total_return : ℚ
  roe : ℚ
  coc : ℚ
  cap_rate : ℚ
  meets_hurdle : Bool
  tier : TierInfo
deriving DecidableEq

/-- The method `ROECalculator.calculate_roe`.  `sqft` is optional (`None` in
Python); `sqft / units if sqft and units else 1000` tests Python truthiness,
so a missing or zero `sqft`, or zero `units`, defaults sqft-per-unit to 1000.
`monthly_rent_per_unit` overrides estimation when supplied.  The zero guards
on `roe`, `coc` and `cap_rate` mirror the conditional expressions of the
source. -/
def calculate_roe (c : ROECalculator) (purchase_price units : ℚ)
    (sqft : Option ℚ) (zip_code : String)
    (monthly_rent_per_unit : Option ℚ) : RoeResult :=
  let rent_per_unit :=
    match monthly_rent_per_unit with
    | some rent => rent
    | none =>
        let sqft_per_unit :=
          match sqft with
          | some s => if s ≠ 0 ∧ units ≠ 0 then s / units else 1000
          | none => 1000
        estimate_market_rent zip_code sqft_per_unit
  let annual_gross_rent := rent_per_unit * units * 12
  let annual_opex := annual_gross_rent * c.opex_ratio
  let noi := annual_gross_rent - annual_opex
  let down_payment := purchase_price * c.down_pct
  let loan_amount := purchase_price - down_payment
  let monthly_payment := calculate_mortgage_payment loan_amount c.rate c.term
  let annual_debt_service := monthly_payment * 12
  let cash_flow := noi - annual_debt_service
  let principal_year1 :=
    calculate_principal_paydown_year1 loan_amount monthly_payment c.rate
  let appreciation_value := purchase_price * c.appreciation
  let total_return := cash_flow + principal_year1 + appreciation_value
  let roe := if down_payment > 0 then total_return / down_payment else 0
  let coc := if down_payment > 0 then cash_flow / down_payment else 0
  let cap_rate := if purchase_price > 0 then noi / purchase_price else 0
  { purchase_price := purchase_price
    units := units
    monthly_rent_per_unit := rent_per_unit
    zip_code := zip_code
    down_payment := down_payment
    loan_amount := loan_amount
    monthly_payment := monthly_payment
    annual_gross_rent := annual_gross_rent
    annual_opex := annual_opex
    opex_ratio := c.opex_ratio
    noi := noi
    annual_debt_service := annual_debt_service
    cash_flow := cash_flow
    principal_paydown := principal_year1
    appreciation := appreciation_value
    total_return := total_return
    roe := roe
    coc := coc
    cap_rate := cap_rate
    meets_hurdle := decide (roe ≥ 0.15)
    tier := get_roe_tier roe }

/-- C7: the degenerate-input guards of calculate_roe — a zero down payment
forces ROE and CoC to exactly 0 and a zero purchase price forces the cap rate
to exactly 0; the function is total, no division error occurs. -/
theorem C7_zero_guards (c : ROECalculator) (purchase_price units : ℚ)
    (sqft : Option ℚ) (zip_code : String) (rent : Option ℚ) :
    ((calculate_roe c purchase_price units sqft zip_code rent).down_payment = 0 →
      (calculate_roe c purchase_price units sqft zip_code rent).roe = 0 ∧
        (calculate_roe c purchase_price units sqft zip_code rent).coc = 0) ∧
    (purchase_price = 0 →
      (calculate_roe c purchase_price units sqft zip_code rent).cap_rate = 0) := by
  constructor
  · intro h
    have hdp : purchase_price * c.down_pct = 0 := h
    constructor <;>
      · show (if purchase_price * c.down_pct > 0 then _ else 0) = 0
        rw [if_neg (by rw [hdp]; exact lt_irrefl 0)]
  · intro h
    show (if purchase_price > 0 then _ else 0) = 0
    rw [if_neg (by rw [h]; exact lt_irrefl 0)]

/-- Witness for C7 at a zero purchase price (hence zero down payment) with the
default configuration. -/
theorem C7_zero_guards_witness :
    (calculate_roe defaultCalculator 0 10 (some 10000) "75001" none).down_payment
        = 0 ∧
      (calculate_roe defaultCalculator 0 10 (some 10000) "75001" none).roe = 0 ∧
      (calculate_roe defaultCalculator 0 10 (some 10000) "75001" none).coc = 0 ∧
      (calculate_roe defaultCalculator 0 10 (some 10000) "75001" none).cap_rate
        = 0 := by
  have hdp : (calculate_roe defaultCalculator 0 10 (some 10000) "75001"
      none).down_payment = 0 := by
    show (0 : ℚ) * defaultCalculator.down_pct = 0
    ring
  have h := C7_zero_guards defaultCalculator 0 10 (some 10000) "75001" none
  exact ⟨hdp, (h.1 hdp).1, (h.1 hdp).2, h.2 rfl⟩

/-- decide (x ≥ 0.15) = true exactly when the tier of x is unicorn or strong. -/
lemma hurdle_iff_tier (x : ℚ) :
    (decide (x ≥ 0.15) = true ↔
      get_roe_tier x = ROE_TIERS Tier.unicorn ∨
        get_roe_tier x = ROE_TIERS Tier.strong) := by
  rw [decide_eq_true_iff]
  unfold get_roe_tier
  split_ifs with h1 h2 h3
  · simp only [eq_self_iff_true, true_or, iff_true]
    linarith
  · simp only [eq_self_iff_true, or_true, iff_true]
    exact h2
  · constructor
    · intro h
      exact absurd h h2
    · rintro (h | h) <;> exact absurd h (by norm_num [ROE_TIERS])
  · constructor
    · intro h
      exact absurd h h2
    · rintro (h | h) <;> exact absurd h (by norm_num [ROE_TIERS])

/-- C9: in every record produced by calculate_roe, meets_hurdle is true iff
roe ≥ 0.15, which holds iff the record's tier is unicorn or strong — the flag
and the tier can never disagree. -/
theorem C9_hurdle_matches_tier (c : ROECalculator) (purchase_price units : ℚ)
    (sqft : Option ℚ) (zip_code : String) (rent : Option ℚ) :
    ((calculate_roe c purchase_price units sqft zip_code rent).meets_hurdle
        = true ↔
      0.15 ≤ (calculate_roe c purchase_price units sqft zip_code rent).roe) ∧
    ((calculate_roe c purchase_price units sqft zip_code rent).meets_hurdle
        = true ↔
      (calculate_roe c purchase_price units sqft zip_code rent).tier
          = ROE_TIERS Tier.unicorn ∨
        (calculate_roe c purchase_price units sqft zip_code rent).tier
          = ROE_TIERS Tier.strong) := by
  constructor
  · exact decide_eq_true_iff
  · exact hurdle_iff_tier _

/-- A pandas row of the batch input.  Accessing a missing required column
(`row['price']`, `row['units']`, `row['zip_code']`) raises `KeyError`, so the
required fields are `Option`s; `sqft` is read with `row.get('sqft', None)` and
never fails; `address` is only used in the warning log; a
`monthly_rent_per_unit` column is extra input the batch never reads (C10). -/
structure PropertyRow where
  address : Option String
  price : Option ℚ
  units : Option ℚ
  sqft : Option ℚ
  zip_code : Option String
  monthly_rent_per_unit : Option ℚ
deriving DecidableEq

/-- The try-block body of `analyze_portfolio` for one row: a missing required
field raises, which the except-clause turns into skipping the row (`none`).
The call passes no known rent (`monthly_rent_per_unit` stays `None`), so rent
is always estimated. -/
def calcRow (c : ROECalculator) (row : PropertyRow) : Option RoeResult :=
  match row.price, row.units, row.zip_code with
  | some price, some units, some zip_code =>
      some (calculate_roe c price units row.sqft zip_code none)
  | _, _, _ => none

/-- The method `ROECalculator.analyze_portfolio`: map the per-row calculation
over the rows, skipping failing rows; each surviving result is the input row's
columns merged with the computed columns (modelled as a pair).  After the
loop, the summary-statistics step reads the `roe` column of the result frame;
when no row survived, `pd.DataFrame([])` has no columns and that read raises
`KeyError: 'roe'`, modelled as `Except.error` escaping the call. -/
def analyze_portfolio (c : ROECalculator)
    (properties_df : List PropertyRow) :
    Except String (List (PropertyRow × RoeResult)) :=
  let results := properties_df.filterMap fun row =>
    (calcRow c row).map fun roe_calc => (row, roe_calc)
  if results.isEmpty then Except.error "KeyError: 'roe'"
  else Except.ok results

/-- A one-row batch input whose row lacks the required price column. -/
def rowMissingPrice : PropertyRow :=
  { address := some "123 Main St"
    price := none
    units := some 10
    sqft := some 10000
    zip_code := some "75205"
    monthly_rent_per_unit := none }

/-- C1 (code bug): for N = 1 input row of which K = 1 fails its per-row
calculation, the claim demands a 0-row result and no exception; the code
instead lets a KeyError escape the batch call, because the summary-statistics
step reads `result_df['roe']` on the column-less empty result frame. -/
theorem C1_all_rows_failing_raises :
    analyze_portfolio defaultCalculator [rowMissingPrice] =
      Except.error "KeyError: 'roe'" := rfl

/-- Two batch rows that agree on everything the per-row calculation reads:
price, units, sqft and zip_code (they may differ in a rent column, and in the
address used only for logging). -/
def rentInsensitiveEq (r1 r2 : PropertyRow) : Prop :=
  r1.price = r2.price ∧ r1.units = r2.units ∧ r1.sqft = r2.sqft ∧
    r1.zip_code = r2.zip_code

lemma calcRow_rent_insensitive (c : ROECalculator) (r1 r2 : PropertyRow)
    (h : rentInsensitiveEq r1 r2) : calcRow c r1 = calcRow c r2 := by
  obtain ⟨h1, h2, h3, h4⟩ := h
  unfold calcRow
  rw [h1, h2, h3, h4]

lemma results_snd_rent_insensitive (c : ROECalculator)
    (rows1 rows2 : List PropertyRow)
    (h : List.Forall₂ rentInsensitiveEq rows1 rows2) :
    (rows1.filterMap fun row =>
        (calcRow c row).map fun roe_calc => (row, roe_calc)).map Prod.snd =
      (rows2.filterMap fun row =>
        (calcRow c row).map fun roe_calc => (row, roe_calc)).map Prod.snd := by
  induction h with
  | nil => rfl
  | cons hab htail ih =>
      rename_i a b l1 l2
      simp only [List.filterMap_cons]
      rw [calcRow_rent_insensitive c a b hab]
      cases calcRow c b with
      | none => simpa using ih
      | some v => simpa using ih

/-- C10: analyze_portfolio never passes a known rent to the per-row
calculation, so two batch inputs that agree row-by-row on price, units, sqft
and zip_code — and may differ arbitrarily in a monthly-rent-per-unit column —
yield outputs whose computed columns are identical. -/
theorem C10_rent_column_ignored (c : ROECalculator)
    (rows1 rows2 : List PropertyRow)
    (h : List.Forall₂ rentInsensitiveEq rows1 rows2) :
    Except.map (List.map Prod.snd) (analyze_portfolio c rows1) =
      Except.map (List.map Prod.snd) (analyze_portfolio c rows2) := by
  have hsnd := results_snd_rent_insensitive c rows1 rows2 h
  simp only [analyze_portfolio]
  set l1 := rows1.filterMap fun row =>
    (calcRow c row).map fun roe_calc => (row, roe_calc) with hl1
  set l2 := rows2.filterMap fun row =>
    (calcRow c row).map fun roe_calc => (row, roe_calc) with hl2
  have hlen : l1.length = l2.length := by
    have hmap := congrArg List.length hsnd
    simpa using hmap
  by_cases hemp : l1.isEmpty = true
  · have h20 : l2 = [] := by
      rw [← List.length_eq_zero, ← hlen, List.isEmpty_iff.mp hemp]
      rfl
    have hemp2 : l2.isEmpty = true := List.isEmpty_iff.mpr h20
    rw [if_pos hemp, if_pos hemp2]
  · have hemp2 : ¬l2.isEmpty = true := by
      intro h2
      apply hemp
      have h10 : l1 = [] := by
        rw [← List.length_eq_zero, hlen, List.isEmpty_iff.mp h2]
        rfl
      exact List.isEmpty_iff.mpr h10
    rw [if_neg hemp, if_neg hemp2]
    show Except.ok (l1.map Prod.snd) = Except.ok (l2.map Prod.snd)
    rw [hsnd]

/-- A row with a rent column value of 1500. -/
def rowWithRent1500 : PropertyRow :=
  { address := some "A"
    price := some 500000
    units := some 8
    sqft := some 8000
    zip_code := some "75214"
    monthly_rent_per_unit := some 1500 }

/-- The same row except the rent column reads 2500. -/
def rowWithRent2500 : PropertyRow :=
  { address := some "A"
    price := some 500000
    units := some 8
    sqft := some 8000
    zip_code := some "75214"
    monthly_rent_per_unit := some 2500 }

/-- Witness for C10: one-row inputs differing only in the rent column. -/
theorem C10_rent_column_ignored_witness :
    List.Forall₂ rentInsensitiveEq [rowWithRent1500] [rowWithRent2500] ∧
      Except.map (List.map Prod.snd)
          (analyze_portfolio defaultCalculator [rowWithRent1500]) =
        Except.map (List.map Prod.snd)
          (analyze_portfolio defaultCalculator [rowWithRent2500]) := by
  have hf : List.Forall₂ rentInsensitiveEq [rowWithRent1500] [rowWithRent2500] :=
    List.Forall₂.cons ⟨rfl, rfl, rfl, rfl⟩ List.Forall₂.nil
  exact ⟨hf, C10_rent_column_ignored defaultCalculator _ _ hf⟩

set_option allowUnsafeReducibility true in
attribute [semireducible] Rat.mul Rat.add Rat.sub Rat.inv Rat.ofScientific

/-- Round a rational to the nearest integer, ties to even: the rounding
CPython's fixed-point formatting applies to the value being printed (the
embedding treats the float values as exact rationals throughout). -/
def roundHalfEven (q : ℚ) : ℤ :=
  let f := ⌊q⌋
  if q - f < 1 / 2 then f
  else if 1 / 2 < q - f then f + 1
  else if f % 2 = 0 then f else f + 1

/-- Group a digit list (least significant first) into blocks of three. -/
def chunk3 : List Char → List (List Char)
  | [] => []
  | a :: b :: c :: rest => [a, b, c] :: chunk3 rest
  | l => [l]

/-- The decimal digits of n with a comma every three digits, as the `,`
option of Python's format spec writes them. -/
def groupThousands (n : ℕ) : String :=
  let rev := (toString n).data.reverse
  let groups := (chunk3 rev).map fun g => String.mk g.reverse
  String.intercalate "," groups.reverse

/-- Pad a digit string with leading zeros to the requested width. -/
def padLeftZeros (s : String) (width : ℕ) : String :=
  String.mk (List.replicate (width - s.length) '0') ++ s

/-- Python's fixed-point format `.{prec}f` of an exact rational: scale by
10^prec, round half to even, print with `prec` digits after the point; the
sign comes from the value (Python prints `-0` for a small negative). -/
def pyFormatFixed (prec : ℕ) (q : ℚ) : String :=
  let m := (roundHalfEven (q * (10 : ℚ) ^ prec)).natAbs
  let sign := if q < 0 then "-" else ""
  if prec = 0 then sign ++ toString m
  else sign ++ toString (m / 10 ^ prec) ++ "." ++
    padLeftZeros (toString (m % 10 ^ prec)) prec

/-- Python's `,.0f` format: round to an integer and insert thousands
separators. -/
def pyFormatCommaF0 (q : ℚ) : String :=
  let m := (roundHalfEven q).natAbs
  let sign := if q < 0 then "-" else ""
  sign ++ groupThousands m

/-- Python's `.{prec}%` format: multiply by 100, fixed-point, append `%`. -/
def pyFormatPercent (prec : ℕ) (q : ℚ) : String :=
  pyFormatFixed prec (q * 100) ++ "%"

/-- The `'='*60` separator line of the summary template. -/
def eqLine : String := String.mk (List.replicate 60 '=')

/-- The `'─'*60` separator line of the summary template. -/
def dashLine : String := String.mk (List.replicate 60 '─')

/-- The module-level function `format_roe_summary`: the f-string template of
the source transcribed segment by segment, with the format specs it actually
uses — `:,.0f` for every currency field, `:.0f` for units, `:.1%` for ROE and
CoC, `:.0%` for the OpEx ratio and `:.2%` for the cap rate. -/
def format_roe_summary (roe_data : RoeResult) : String :=
  "\n" ++ eqLine ++ "\n" ++
  roe_data.tier.label ++ " - ROE: " ++ pyFormatPercent 1 roe_data.roe ++ "\n" ++
  eqLine ++
  "\n\nInvestment:\n  Purchase Price:        $" ++
  pyFormatCommaF0 roe_data.purchase_price ++
  "\n  Down Payment (25%):    $" ++ pyFormatCommaF0 roe_data.down_payment ++
  "\n  Loan (75% @ 7%, 30yr): $" ++ pyFormatCommaF0 roe_data.loan_amount ++
  "\n\nProperty:\n  Units:                 " ++ pyFormatFixed 0 roe_data.units ++
  "\n  Est. Rent/Unit:        $" ++
  pyFormatCommaF0 roe_data.monthly_rent_per_unit ++
  "/mo\n\nIncome:\n  Gross Rents:           $" ++
  pyFormatCommaF0 roe_data.annual_gross_rent ++
  "/yr\n  Operating Expenses:   -$" ++ pyFormatCommaF0 roe_data.annual_opex ++
  "/yr (" ++ pyFormatPercent 0 roe_data.opex_ratio ++
  ")\n  Net Operating Income:  $" ++ pyFormatCommaF0 roe_data.noi ++
  "/yr\n\nCash Flow:\n  NOI:                   $" ++
  pyFormatCommaF0 roe_data.noi ++
  "\n  Debt Service:         -$" ++
  pyFormatCommaF0 roe_data.annual_debt_service ++
  "\n  Annual Cash Flow:      $" ++ pyFormatCommaF0 roe_data.cash_flow ++
  " (" ++ pyFormatPercent 1 roe_data.coc ++
  " CoC)\n\nYear 1 Wealth Creation:\n  💵 Cash Flow:          $" ++
  pyFormatCommaF0 roe_data.cash_flow ++
  "\n  🏦 Principal Paydown:  $" ++
  pyFormatCommaF0 roe_data.principal_paydown ++
  "\n  📈 Appreciation:       $" ++ pyFormatCommaF0 roe_data.appreciation ++
  " (0% assumption)\n  " ++ dashLine ++
  "\n  💰 Total Return:       $" ++ pyFormatCommaF0 roe_data.total_return ++
  "\n\n🎯 RETURN ON EQUITY: " ++ pyFormatPercent 1 roe_data.roe ++
  "\n   Cap Rate: " ++ pyFormatPercent 2 roe_data.cap_rate ++
  "\n" ++ eqLine ++ "\n"

/-- The summary as the rendering contract describes it once corrected: the
fixed field order of the template, each percentage with the precision the
code uses (one decimal for ROE and CoC, zero for the OpEx ratio, two for the
cap rate), thousands separators on every currency field. -/
def summary_parts_as_coded (r : RoeResult) : List String :=
  ["\n", eqLine, "\n", r.tier.label, " - ROE: ", pyFormatPercent 1 r.roe, "\n",
    eqLine, "\n\nInvestment:\n  Purchase Price:        $",
    pyFormatCommaF0 r.purchase_price, "\n  Down Payment (25%):    $",
    pyFormatCommaF0 r.down_payment, "\n  Loan (75% @ 7%, 30yr): $",
    pyFormatCommaF0 r.loan_amount, "\n\nProperty:\n  Units:                 ",
    pyFormatFixed 0 r.units, "\n  Est. Rent/Unit:        $",
    pyFormatCommaF0 r.monthly_rent_per_unit,
    "/mo\n\nIncome:\n  Gross Rents:           $",
    pyFormatCommaF0 r.annual_gross_rent, "/yr\n  Operating Expenses:   -$",
    pyFormatCommaF0 r.annual_opex, "/yr (", pyFormatPercent 0 r.opex_ratio,
    ")\n  Net Operating Income:  $", pyFormatCommaF0 r.noi,
    "/yr\n\nCash Flow:\n  NOI:                   $", pyFormatCommaF0 r.noi,
    "\n  Debt Service:         -$", pyFormatCommaF0 r.annual_debt_service,
    "\n  Annual Cash Flow:      $", pyFormatCommaF0 r.cash_flow, " (",
    pyFormatPercent 1 r.coc,
    " CoC)\n\nYear 1 Wealth Creation:\n  💵 Cash Flow:          $",
    pyFormatCommaF0 r.cash_flow, "\n  🏦 Principal Paydown:  $",
    pyFormatCommaF0 r.principal_paydown, "\n  📈 Appreciation:       $",
    pyFormatCommaF0 r.appreciation, " (0% assumption)\n  ", dashLine,
    "\n  💰 Total Return:       $", pyFormatCommaF0 r.total_return,
    "\n\n🎯 RETURN ON EQUITY: ", pyFormatPercent 1 r.roe,
    "\n   Cap Rate: ", pyFormatPercent 2 r.cap_rate, "\n", eqLine, "\n"]

/-- The summary as claim C8 states the contract: the same template and field
order, but with every percentage field rendered to one decimal place. -/
def summary_parts_claimed (r : RoeResult) : List String :=
  ["\n", eqLine, "\n", r.tier.label, " - ROE: ", pyFormatPercent 1 r.roe, "\n",
    eqLine, "\n\nInvestment:\n  Purchase Price:        $",
    pyFormatCommaF0 r.purchase_price, "\n  Down Payment (25%):    $",
    pyFormatCommaF0 r.down_payment, "\n  Loan (75% @ 7%, 30yr): $",
    pyFormatCommaF0 r.loan_amount, "\n\nProperty:\n  Units:                 ",
    pyFormatFixed 0 r.units, "\n  Est. Rent/Unit:        $",
    pyFormatCommaF0 r.monthly_rent_per_unit,
    "/mo\n\nIncome:\n  Gross Rents:           $",
    pyFormatCommaF0 r.annual_gross_rent, "/yr\n  Operating Expenses:   -$",
    pyFormatCommaF0 r.annual_opex, "/yr (", pyFormatPercent 1 r.opex_ratio,
    ")\n  Net Operating Income:  $", pyFormatCommaF0 r.noi,
    "/yr\n\nCash Flow:\n  NOI:                   $", pyFormatCommaF0 r.noi,
    "\n  Debt Service:         -$", pyFormatCommaF0 r.annual_debt_service,
    "\n  Annual Cash Flow:      $", pyFormatCommaF0 r.cash_flow, " (",
    pyFormatPercent 1 r.coc,
    " CoC)\n\nYear 1 Wealth Creation:\n  💵 Cash Flow:          $",
    pyFormatCommaF0 r.cash_flow, "\n  🏦 Principal Paydown:  $",
    pyFormatCommaF0 r.principal_paydown, "\n  📈 Appreciation:       $",
    pyFormatCommaF0 r.appreciation, " (0% assumption)\n  ", dashLine,
    "\n  💰 Total Return:       $", pyFormatCommaF0 r.total_return,
    "\n\n🎯 RETURN ON EQUITY: ", pyFormatPercent 1 r.roe,
    "\n   Cap Rate: ", pyFormatPercent 1 r.cap_rate, "\n", eqLine, "\n"]

/-- The end-to-end example record of the spec (section 8): price $1,000,000,
10 units, value-tier ZIP, rent $1,000; cap rate 7.8%, ROE 11.02%. -/
def exampleResult : RoeResult :=
  { purchase_price := 1000000
    units := 10
    monthly_rent_per_unit := 1000
    zip_code := "75243"
    down_payment := 250000
    loan_amount := 750000
    monthly_payment := 4989.86
    annual_gross_rent := 120000
    annual_opex := 42000
    opex_ratio := 0.35
    noi := 78000
    annual_debt_service := 59878.32
    cash_flow := 18121.68
    principal_paydown := 9430
    appreciation := 0
    total_return := 27551.68
    roe := 0.1102
    coc := 0.0725
    cap_rate := 0.078
    meets_hurdle := false
    tier := ROE_TIERS Tier.marginal }

set_option maxRecDepth 20000

/-- Counterexample to C8: on the spec's own end-to-end example the summary
does not render every percentage field to one decimal place — the cap rate
prints as `7.80%` (two decimals) and the OpEx ratio as `35%` (none), so the
formatted output differs from the claimed all-one-decimal rendering. -/
theorem C8_one_decimal_counterexample :
    format_roe_summary exampleResult ≠
      String.join (summary_parts_claimed exampleResult) := by decide

/-- C8 as amended: the summary is exactly the template's fixed field order
with thousands-separated currency, units to zero decimals, ROE and CoC to one
decimal, the OpEx ratio to zero decimals and the cap rate to two. -/
theorem C8_summary_rendering (roe_data : RoeResult) :
    format_roe_summary roe_data =
      String.join (summary_parts_as_coded roe_data) := by
  show _ = List.foldl (fun r s => r ++ s) "" _
  rfl

end RealtyVest
